import Mathlib

/-!
Shallow embedding of the Relocate-Engine component fragment:
the `RigidBody` component (src/RigidBody.cpp), the `StatSystem`
(src/StatSystem.h) and their interaction with the external Box2D-style
physics engine.  Machine floats are modelled by exact rationals; the
external engine is modelled by an explicit body state together with a log
of the force/impulse calls forwarded to it.  Nullable C++ pointers become
`Option`, and an operation that dereferences a possibly-null handle
returns `Option` (`none` exactly on the null dereference).
-/

/-- Two-dimensional vector with rational coordinates, standing in for both
sf::Vector2f and b2Vec2 (floats are modelled exactly by rationals). -/
structure Vec2 where
  x : ℚ
  y : ℚ
deriving DecidableEq

namespace PhysicsSystem

/-- Modelled from the spec: PhysicsSystem.h is not part of the source
fragment.  The spec describes a fixed conversion factor between game units
and physics-engine units (fixture properties are "scaled by a fixed
conversion factor").  The factor is taken as the constant 100; every
theorem below depends only on it being a fixed constant (nonzero where the
round-trip needs it, different from 1 where non-conversion is exhibited). -/
def scale : ℚ := 100

/-- Modelled from the spec: unit conversion from game space into
physics-engine units is linear, dividing each coordinate by the fixed
factor (the inverse of the per-component multiplication the fixture-def
getters perform). -/
def convertToB2 (v : Vec2) : Vec2 := ⟨v.x / scale, v.y / scale⟩

end PhysicsSystem

/-- Physics-engine shape values: a box polygon given by half extents, a
circle given by centre and radius, an edge given by two endpoints.  These
stand for the b2PolygonShape / b2CircleShape / b2EdgeShape objects the
shape factories allocate. -/
inductive B2Shape where
  | polygonBox (hx hy : ℚ)
  | circle (center : Vec2) (radius : ℚ)
  | edge (v1 v2 : Vec2)
deriving DecidableEq

/-- Body-type enumeration of the physics engine. -/
inductive B2BodyType where
  | b2_staticBody
  | b2_kinematicBody
  | b2_dynamicBody
deriving DecidableEq

/-- Body definition (b2BodyDef): the fields relevant to the fragment, with
the engine's defaults. -/
structure B2BodyDef where
  type : B2BodyType := B2BodyType.b2_staticBody
  position : Vec2 := ⟨0, 0⟩
  angle : ℚ := 0
  linearVelocity : Vec2 := ⟨0, 0⟩
  gravityScale : ℚ := 1
deriving DecidableEq

/-- Fixture definition (b2FixtureDef) with the engine's defaults. -/
structure B2FixtureDef where
  shape : Option B2Shape := none
  density : ℚ := 0
  friction : ℚ := 1/5
  restitution : ℚ := 0
deriving DecidableEq

/-- Record of a force/impulse call forwarded to the physics engine,
including the wake flag. -/
inductive EngineCall where
  | applyForce (force point : Vec2) (wake : Bool)
  | applyForceToCenter (force : Vec2) (wake : Bool)
  | applyLinearImpulse (impulse point : Vec2) (wake : Bool)
  | applyLinearImpulseToCenter (impulse : Vec2) (wake : Bool)
deriving DecidableEq

/-- Physics-engine body state (b2Body), as far as the fragment touches it:
transform (position, angle and the stored rotation sine/cosine pair),
linear velocity, gravity scale, attached fixtures, and the log of
force/impulse calls forwarded to the engine.  `rotC`/`rotS` stand for the
cosine/sine pair the engine keeps in its transform; recomputing them from
an angle is transcendental engine-internal work that the fragment never
relies on (its only SetTransform call passes the body's current angle
back), so the model carries the pair without tying it to `angle`. -/
structure B2Body where
  type : B2BodyType
  position : Vec2
  angle : ℚ
  rotC : ℚ
  rotS : ℚ
  linearVelocity : Vec2
  gravityScale : ℚ
  fixtures : List B2FixtureDef
  calls : List EngineCall
deriving DecidableEq

namespace B2Body

/-- Engine accessor b2Body::GetAngle. -/
def GetAngle (b : B2Body) : ℚ := b.angle

/-- Engine accessor b2Body::GetWorldPoint: maps a local point through the
body transform (rotation by the stored sine/cosine pair, then translation
by the position). -/
def GetWorldPoint (b : B2Body) (p : Vec2) : Vec2 :=
  ⟨b.rotC * p.x - b.rotS * p.y + b.position.x,
   b.rotS * p.x + b.rotC * p.y + b.position.y⟩

/-- Engine mutator b2Body::SetTransform: sets position and angle.  The
stored sine/cosine pair is engine-internal trigonometry; the fragment only
ever calls SetTransform with the body's unchanged current angle, for which
the pair is unchanged, so the model leaves it untouched. -/
def SetTransform (b : B2Body) (p : Vec2) (a : ℚ) : B2Body :=
  { b with position := p, angle := a }

/-- Engine mutator b2Body::SetLinearVelocity. -/
def SetLinearVelocity (b : B2Body) (v : Vec2) : B2Body :=
  { b with linearVelocity := v }

/-- Engine accessor b2Body::GetGravityScale. -/
def GetGravityScale (b : B2Body) : ℚ := b.gravityScale

/-- Engine mutator b2Body::SetGravityScale. -/
def SetGravityScale (b : B2Body) (g : ℚ) : B2Body :=
  { b with gravityScale := g }

/-- Engine mutator b2Body::CreateFixture: attaches a fixture built from the
definition (the engine prepends to its fixture list). -/
def CreateFixture (b : B2Body) (fd : B2FixtureDef) : B2Body :=
  { b with fixtures := fd :: b.fixtures }

/-- Engine call b2Body::ApplyForce: recorded on the call log. -/
def ApplyForce (b : B2Body) (force point : Vec2) (wake : Bool) : B2Body :=
  { b with calls := EngineCall.applyForce force point wake :: b.calls }

/-- Engine call b2Body::ApplyForceToCenter: recorded on the call log. -/
def ApplyForceToCenter (b : B2Body) (force : Vec2) (wake : Bool) : B2Body :=
  { b with calls := EngineCall.applyForceToCenter force wake :: b.calls }

/-- Engine call b2Body::ApplyLinearImpulse: recorded on the call log. -/
def ApplyLinearImpulse (b : B2Body) (impulse point : Vec2) (wake : Bool) : B2Body :=
  { b with calls := EngineCall.applyLinearImpulse impulse point wake :: b.calls }

/-- Engine call b2Body::ApplyLinearImpulseToCenter: recorded on the call
log. -/
def ApplyLinearImpulseToCenter (b : B2Body) (impulse : Vec2) (wake : Bool) : B2Body :=
  { b with calls := EngineCall.applyLinearImpulseToCenter impulse wake :: b.calls }

end B2Body

namespace b2World

/-- Engine allocator b2World::CreateBody: builds a fresh body from a body
definition, with no fixtures and an empty call log.  The rotation pair of
a fresh body is engine-internal trigonometry of `bd.angle`; no claim
depends on its value, so the model fixes the identity rotation. -/
def CreateBody (bd : B2BodyDef) : B2Body :=
  { type := bd.type
    position := bd.position
    angle := bd.angle
    rotC := 1
    rotS := 0
    linearVelocity := bd.linearVelocity
    gravityScale := bd.gravityScale
    fixtures := []
    calls := [] }

end b2World

/-- The RigidBody component state: the nullable body handle, the
deferred-destroy list the replaced bodies are pushed onto, the cached
previous transform, and the out-of-sync flag. -/
structure RigidBody where
  body_ : Option B2Body
  disposeList_ : List B2Body
  previousPosition_ : Vec2
  previousAngle_ : ℚ
  isOutOfSync_ : Bool
deriving DecidableEq

namespace RigidBody

/-- Static default body definition (b2BodyDef()). -/
def defaultBodyDefinition_ : B2BodyDef := {}

/-- The RigidBody() constructor: creates a body from the default
definition in the registered world, zeroes the cached transform, and
starts out of sync. -/
def init : RigidBody :=
  { body_ := some (b2World.CreateBody defaultBodyDefinition_)
    disposeList_ := []
    previousPosition_ := ⟨0, 0⟩
    previousAngle_ := 0
    isOutOfSync_ := true }

/-- Shape factory RigidBody::BoxShape: converts the (w, h) extents to
physics units and builds a box polygon from them. -/
def BoxShape (w h : ℚ) : B2Shape :=
  let pos := PhysicsSystem.convertToB2 ⟨w, h⟩
  B2Shape.polygonBox pos.x pos.y

/-- Shape factory RigidBody::CircleShape: converts the centre (x, y) to
physics units; the radius r is stored as given (the source assigns
m_radius = r without conversion). -/
def CircleShape (x y r : ℚ) : B2Shape :=
  let pos := PhysicsSystem.convertToB2 ⟨x, y⟩
  B2Shape.circle pos r

/-- Shape factory RigidBody::LineShape: converts both endpoints to physics
units and builds an edge from them. -/
def LineShape (x1 y1 x2 y2 : ℚ) : B2Shape :=
  B2Shape.edge (PhysicsSystem.convertToB2 ⟨x1, y1⟩)
    (PhysicsSystem.convertToB2 ⟨x2, y2⟩)

/-- The guarded block of RigidBody::instantiateBody (lines 127-130): if the
body handle is non-null, push it onto the deferred-destroy list and null
the handle; otherwise do nothing. -/
def relinquishBody (rb : RigidBody) : RigidBody :=
  match rb.body_ with
  | some b => { rb with disposeList_ := rb.disposeList_ ++ [b], body_ := none }
  | none => rb

/-- RigidBody::instantiateBody: relinquish the current body (deferred
dispose), then create a new body from the given definition and mark the
component out of sync with its transform. -/
def instantiateBody (rb : RigidBody) (bd : B2BodyDef) : RigidBody :=
  let rb1 := relinquishBody rb
  { rb1 with body_ := some (b2World.CreateBody bd), isOutOfSync_ := true }

/-- RigidBody::addFixture: unconditional body_->CreateFixture(&def). -/
def addFixture (rb : RigidBody) (fd : B2FixtureDef) : Option RigidBody :=
  rb.body_.map fun b => { rb with body_ := some (b.CreateFixture fd) }

/-- RigidBody::warpToVec: body_->SetTransform(convertToB2(dest),
body_->GetAngle()) followed by body_->SetLinearVelocity(b2Vec2(0,0)). -/
def warpToVec (rb : RigidBody) (dest : Vec2) : Option RigidBody :=
  rb.body_.map fun b =>
    { rb with body_ := some ((b.SetTransform
        (PhysicsSystem.convertToB2 dest) b.GetAngle).SetLinearVelocity ⟨0, 0⟩) }

/-- RigidBody::warpTo: scalar entry point delegating to warpToVec. -/
def warpTo (rb : RigidBody) (x y : ℚ) : Option RigidBody :=
  rb.warpToVec ⟨x, y⟩

/-- RigidBody::applyForceToCentreVec: body_->ApplyForceToCenter with the
converted force and wake = true. -/
def applyForceToCentreVec (rb : RigidBody) (force : Vec2) : Option RigidBody :=
  rb.body_.map fun b =>
    { rb with body_ := some (b.ApplyForceToCenter (PhysicsSystem.convertToB2 force) true) }

/-- RigidBody::applyForceToCentre: scalar entry point. -/
def applyForceToCentre (rb : RigidBody) (i j : ℚ) : Option RigidBody :=
  rb.applyForceToCentreVec ⟨i, j⟩

/-- RigidBody::applyForceRelVec: body_->ApplyForce with the converted
force, the world point of the converted relative position, and
wake = true. -/
def applyForceRelVec (rb : RigidBody) (force relPos : Vec2) : Option RigidBody :=
  rb.body_.map fun b =>
    { rb with body_ := some (b.ApplyForce (PhysicsSystem.convertToB2 force)
        (b.GetWorldPoint (PhysicsSystem.convertToB2 relPos)) true) }

/-- RigidBody::applyForceRel: scalar entry point. -/
def applyForceRel (rb : RigidBody) (i j x y : ℚ) : Option RigidBody :=
  rb.applyForceRelVec ⟨i, j⟩ ⟨x, y⟩

/-- RigidBody::applyForceVec: body_->ApplyForce with the converted force,
the converted absolute location, and wake = true. -/
def applyForceVec (rb : RigidBody) (force location : Vec2) : Option RigidBody :=
  rb.body_.map fun b =>
    { rb with body_ := some (b.ApplyForce (PhysicsSystem.convertToB2 force)
        (PhysicsSystem.convertToB2 location) true) }

/-- RigidBody::applyForce: scalar entry point. -/
def applyForce (rb : RigidBody) (i j x y : ℚ) : Option RigidBody :=
  rb.applyForceVec ⟨i, j⟩ ⟨x, y⟩

/-- RigidBody::applyImpulseToCentreVec: body_->ApplyLinearImpulseToCenter
with the converted impulse and wake = true. -/
def applyImpulseToCentreVec (rb : RigidBody) (impulse : Vec2) : Option RigidBody :=
  rb.body_.map fun b =>
    { rb with body_ := some (b.ApplyLinearImpulseToCenter (PhysicsSystem.convertToB2 impulse) true) }

/-- RigidBody::applyImpulseToCentre: scalar entry point. -/
def applyImpulseToCentre (rb : RigidBody) (i j : ℚ) : Option RigidBody :=
  rb.applyImpulseToCentreVec ⟨i, j⟩

/-- RigidBody::applyImpulseRelVec: body_->ApplyLinearImpulse with the
converted impulse, the world point of the converted relative position, and
wake = true. -/
def applyImpulseRelVec (rb : RigidBody) (impulse relPos : Vec2) : Option RigidBody :=
  rb.body_.map fun b =>
    { rb with body_ := some (b.ApplyLinearImpulse (PhysicsSystem.convertToB2 impulse)
        (b.GetWorldPoint (PhysicsSystem.convertToB2 relPos)) true) }

/-- RigidBody::applyImpulseRel: scalar entry point. -/
def applyImpulseRel (rb : RigidBody) (i j x y : ℚ) : Option RigidBody :=
  rb.applyImpulseRelVec ⟨i, j⟩ ⟨x, y⟩

/-- RigidBody::applyImpulseVec: body_->ApplyLinearImpulse with the
converted impulse, the converted absolute location, and wake = true. -/
def applyImpulseVec (rb : RigidBody) (impulse location : Vec2) : Option RigidBody :=
  rb.body_.map fun b =>
    { rb with body_ := some (b.ApplyLinearImpulse (PhysicsSystem.convertToB2 impulse)
        (PhysicsSystem.convertToB2 location) true) }

/-- RigidBody::applyImpulse: scalar entry point. -/
def applyImpulse (rb : RigidBody) (i j x y : ℚ) : Option RigidBody :=
  rb.applyImpulseVec ⟨i, j⟩ ⟨x, y⟩

/-- The script-exposed gravity property getter (usertype registration,
line 69): return self.body_->GetGravityScale() with no scaling applied. -/
def gravityGet (rb : RigidBody) : Option ℚ :=
  rb.body_.map B2Body.GetGravityScale

/-- The script-exposed gravity property setter (usertype registration,
line 70): self.body_->SetGravityScale(g) with no scaling applied. -/
def gravitySet (rb : RigidBody) (g : ℚ) : Option RigidBody :=
  rb.body_.map fun b => { rb with body_ := some (b.SetGravityScale g) }

end RigidBody

namespace B2FixtureDef

/-- Script-exposed density getter (usertype registration, line 100):
return self.density * PhysicsSystem::scale. -/
def densityGet (fd : B2FixtureDef) : ℚ := fd.density * PhysicsSystem.scale

/-- Script-exposed density setter (usertype registration, line 101):
self.density = d / PhysicsSystem::scale. -/
def densitySet (fd : B2FixtureDef) (d : ℚ) : B2FixtureDef :=
  { fd with density := d / PhysicsSystem.scale }

/-- Script-exposed friction getter (usertype registration, line 103). -/
def frictionGet (fd : B2FixtureDef) : ℚ := fd.friction * PhysicsSystem.scale

/-- Script-exposed friction setter (usertype registration, line 104). -/
def frictionSet (fd : B2FixtureDef) (f : ℚ) : B2FixtureDef :=
  { fd with friction := f / PhysicsSystem.scale }

/-- Script-exposed restitution getter (usertype registration, line 106). -/
def restitutionGet (fd : B2FixtureDef) : ℚ := fd.restitution * PhysicsSystem.scale

/-- Script-exposed restitution setter (usertype registration, line 107). -/
def restitutionSet (fd : B2FixtureDef) (r : ℚ) : B2FixtureDef :=
  { fd with restitution := r / PhysicsSystem.scale }

end B2FixtureDef

/-- Modelled from the spec: the Stats component is external to the
fragment; the spec treats it as a plain struct with numeric fields, one of
which ("a stat value mapped into a speed field") feeds movement speed. -/
structure Stats where
  speed : ℚ
deriving DecidableEq

/-- Modelled from the spec: the Movement component is external to the
fragment; a plain struct whose speed field StatSystem writes. -/
structure Movement where
  speed : ℚ
deriving DecidableEq

/-- An ECS entity as StatSystem sees it: an optional Stats component and
an optional Movement component. -/
structure Entity where
  stats : Option Stats
  movement : Option Movement
deriving DecidableEq

namespace StatSystem

/-- Modelled from the spec: StatSystem::writeMovementStats (declared in
StatSystem.h, implementation not in the fragment) copies the relevant stat
fields into the movement fields, such as move speed. -/
def writeMovementStats (s : Stats) (m : Movement) : Movement :=
  { m with speed := s.speed }

/-- Modelled from the spec: the per-entity step of StatSystem::update. An
entity with both a Stats and a Movement component gets its movement
fields rewritten from its stats; an entity lacking either component is
skipped untouched. -/
def stepEntity (e : Entity) : Entity :=
  match e.stats, e.movement with
  | some s, some m => { e with movement := some (writeMovementStats s m) }
  | _, _ => e

/-- Modelled from the spec: StatSystem::update (declared in StatSystem.h,
implementation not in the fragment) applies the per-entity step to every
entity of the world, once per tick. -/
def update (world : List Entity) : List Entity :=
  world.map stepEntity

end StatSystem

/-- C1: for every RigidBody and every body definition, instantiate puts the
old body handle (if non-null) on the deferred-dispose list rather than
destroying it immediately (a null handle leaves the list unchanged),
creates a new body from the given definition, and sets the out-of-sync
flag to true. -/
theorem instantiateBody_defers_creates_marks (rb : RigidBody) (bd : B2BodyDef) :
    (rb.instantiateBody bd).body_ = some (b2World.CreateBody bd) ∧
    (rb.instantiateBody bd).isOutOfSync_ = true ∧
    (∀ b : B2Body, rb.body_ = some b →
      (rb.instantiateBody bd).disposeList_ = rb.disposeList_ ++ [b]) ∧
    (rb.body_ = none → (rb.instantiateBody bd).disposeList_ = rb.disposeList_) := by
  unfold RigidBody.instantiateBody RigidBody.relinquishBody
  cases h : rb.body_ <;> simp_all

/-- Witness for C1 at a concrete component: the freshly constructed
RigidBody, re-instantiated with the default definition, ends up out of
sync and with its old body queued on the dispose list. -/
theorem instantiateBody_defers_creates_marks_witness :
    (RigidBody.init.instantiateBody RigidBody.defaultBodyDefinition_).isOutOfSync_ = true ∧
    (RigidBody.init.instantiateBody RigidBody.defaultBodyDefinition_).disposeList_ =
      RigidBody.init.disposeList_ ++ [b2World.CreateBody RigidBody.defaultBodyDefinition_] :=
  ⟨(instantiateBody_defers_creates_marks RigidBody.init RigidBody.defaultBodyDefinition_).2.1,
   (instantiateBody_defers_creates_marks RigidBody.init RigidBody.defaultBodyDefinition_).2.2.1
     (b2World.CreateBody RigidBody.defaultBodyDefinition_) rfl⟩

/-- C2: instantiate factors through a relinquish stage: the old handle is
nulled and queued for disposal before the replacement body is created, so
at every point during and after any instantiate the component references
at most one live body (none at the intermediate stage, exactly the new
body afterwards). -/
theorem instantiateBody_single_live_body (rb : RigidBody) (bd : B2BodyDef) :
    rb.instantiateBody bd =
      { rb.relinquishBody with body_ := some (b2World.CreateBody bd), isOutOfSync_ := true } ∧
    (rb.relinquishBody).body_ = none ∧
    (∀ b : B2Body, rb.body_ = some b → b ∈ (rb.relinquishBody).disposeList_) ∧
    (rb.instantiateBody bd).body_ = some (b2World.CreateBody bd) := by
  refine ⟨rfl, ?_, ?_, rfl⟩ <;>
    unfold RigidBody.relinquishBody <;> cases h : rb.body_ <;> simp_all

/-- Witness for C2 at a concrete component: relinquishing the freshly
constructed RigidBody nulls its handle and queues its body. -/
theorem instantiateBody_single_live_body_witness :
    RigidBody.init.relinquishBody.body_ = none ∧
    b2World.CreateBody RigidBody.defaultBodyDefinition_ ∈
      RigidBody.init.relinquishBody.disposeList_ :=
  ⟨(instantiateBody_single_live_body RigidBody.init RigidBody.defaultBodyDefinition_).2.1,
   (instantiateBody_single_live_body RigidBody.init RigidBody.defaultBodyDefinition_).2.2.1
     (b2World.CreateBody RigidBody.defaultBodyDefinition_) rfl⟩

/-- C3: for every RigidBody with a valid body and every destination
(x, y), warpTo sets the body's transform position to the unit-converted
destination and its linear velocity to the zero vector. -/
theorem warpTo_sets_position_zeroes_velocity (rb : RigidBody) (b : B2Body) (x y : ℚ)
    (h : rb.body_ = some b) :
    ∃ b2 : B2Body, rb.warpTo x y = some { rb with body_ := some b2 } ∧
      b2.position = PhysicsSystem.convertToB2 ⟨x, y⟩ ∧
      b2.linearVelocity = ⟨0, 0⟩ := by
  refine ⟨(b.SetTransform (PhysicsSystem.convertToB2 ⟨x, y⟩) b.GetAngle).SetLinearVelocity
    ⟨0, 0⟩, ?_, ?_, ?_⟩ <;>
    simp [RigidBody.warpTo, RigidBody.warpToVec, h, B2Body.SetTransform,
      B2Body.SetLinearVelocity]

/-- Witness for C3: warping the freshly constructed RigidBody to (3, 4)
lands at the converted coordinates with zero velocity. -/
theorem warpTo_sets_position_zeroes_velocity_witness :
    ∃ b2 : B2Body, RigidBody.init.warpTo 3 4 = some { RigidBody.init with body_ := some b2 } ∧
      b2.position = PhysicsSystem.convertToB2 ⟨3, 4⟩ ∧
      b2.linearVelocity = ⟨0, 0⟩ :=
  warpTo_sets_position_zeroes_velocity RigidBody.init
    (b2World.CreateBody RigidBody.defaultBodyDefinition_) 3 4 rfl

/-- C9: warpTo changes only the body's position and linear velocity: the
rotation angle (and the stored rotation pair, body type, gravity scale,
fixtures and call log) is left unchanged. -/
theorem warpToVec_preserves_angle (rb : RigidBody) (b : B2Body) (dest : Vec2)
    (h : rb.body_ = some b) :
    rb.warpToVec dest = some { rb with body_ := some ({ b with
      position := PhysicsSystem.convertToB2 dest, linearVelocity := ⟨0, 0⟩ }) } := by
  cases b
  simp [RigidBody.warpToVec, h, B2Body.SetTransform, B2Body.SetLinearVelocity, B2Body.GetAngle]

/-- Witness for C9: warping the freshly constructed RigidBody changes only
position and velocity of its body. -/
theorem warpToVec_preserves_angle_witness :
    RigidBody.init.warpToVec ⟨3, 4⟩ = some { RigidBody.init with body_ := some ({
      b2World.CreateBody RigidBody.defaultBodyDefinition_ with
        position := PhysicsSystem.convertToB2 ⟨3, 4⟩, linearVelocity := ⟨0, 0⟩ }) } :=
  warpToVec_preserves_angle RigidBody.init
    (b2World.CreateBody RigidBody.defaultBodyDefinition_) ⟨3, 4⟩ rfl

/-- Counterexample to C4: CircleShape does not convert its radius
argument. At (x, y, r) = (0, 0, 100) the produced circle stores radius
100 verbatim, which differs from the unit-converted radius
100 / scale. -/
theorem circleShape_radius_unconverted_cex :
    RigidBody.CircleShape 0 0 100 = B2Shape.circle ⟨0, 0⟩ 100 ∧
    RigidBody.CircleShape 0 0 100 ≠
      B2Shape.circle (PhysicsSystem.convertToB2 ⟨0, 0⟩) ((100 : ℚ) / PhysicsSystem.scale) := by
  constructor
  · simp [RigidBody.CircleShape, PhysicsSystem.convertToB2, PhysicsSystem.scale]
  · simp only [RigidBody.CircleShape, PhysicsSystem.convertToB2, PhysicsSystem.scale, ne_eq,
      B2Shape.circle.injEq, not_and]
    intro _
    norm_num

/-- C4 amended: BoxShape converts the (w, h) extents to physics-engine
units and LineShape converts both endpoints, but CircleShape converts only
the centre (x, y) and stores the radius r unconverted. -/
theorem shape_factories_conversion (w h x y r x1 y1 x2 y2 : ℚ) :
    RigidBody.BoxShape w h = B2Shape.polygonBox (PhysicsSystem.convertToB2 ⟨w, h⟩).x
      (PhysicsSystem.convertToB2 ⟨w, h⟩).y ∧
    RigidBody.CircleShape x y r = B2Shape.circle (PhysicsSystem.convertToB2 ⟨x, y⟩) r ∧
    RigidBody.LineShape x1 y1 x2 y2 = B2Shape.edge (PhysicsSystem.convertToB2 ⟨x1, y1⟩)
      (PhysicsSystem.convertToB2 ⟨x2, y2⟩) :=
  ⟨rfl, rfl, rfl⟩

/-- C5: each script-exposed fixture-definition property getter returns the
stored field multiplied by the fixed conversion factor, each setter stores
the given value divided by that factor, and the set-then-get round trip is
the identity (exactly, in the rational model of floats). -/
theorem fixtureDef_properties_scaled_invertible (fd : B2FixtureDef) (v : ℚ) :
    fd.densityGet = fd.density * PhysicsSystem.scale ∧
    (fd.densitySet v).density = v / PhysicsSystem.scale ∧
    (fd.densitySet v).densityGet = v ∧
    fd.frictionGet = fd.friction * PhysicsSystem.scale ∧
    (fd.frictionSet v).friction = v / PhysicsSystem.scale ∧
    (fd.frictionSet v).frictionGet = v ∧
    fd.restitutionGet = fd.restitution * PhysicsSystem.scale ∧
    (fd.restitutionSet v).restitution = v / PhysicsSystem.scale ∧
    (fd.restitutionSet v).restitutionGet = v := by
  refine ⟨rfl, rfl, ?_, rfl, rfl, ?_, rfl, rfl, ?_⟩ <;>
    simp [B2FixtureDef.densityGet, B2FixtureDef.densitySet, B2FixtureDef.frictionGet,
      B2FixtureDef.frictionSet, B2FixtureDef.restitutionGet, B2FixtureDef.restitutionSet,
      PhysicsSystem.scale]

/-- C10: the script-exposed gravity property is an unscaled pass-through:
the setter stores g verbatim as the body's gravity scale, the getter
returns exactly the stored value, and set-then-get returns g with no
conversion factor applied in either direction. -/
theorem gravity_passthrough (rb : RigidBody) (b : B2Body) (g : ℚ)
    (h : rb.body_ = some b) :
    rb.gravityGet = some b.gravityScale ∧
    rb.gravitySet g = some { rb with body_ := some ({ b with gravityScale := g }) } ∧
    (∀ rb2 : RigidBody, rb.gravitySet g = some rb2 → rb2.gravityGet = some g) := by
  refine ⟨?_, ?_, ?_⟩
  · simp [RigidBody.gravityGet, h, B2Body.GetGravityScale]
  · simp [RigidBody.gravitySet, h, B2Body.SetGravityScale]
  · intro rb2 h2
    simp [RigidBody.gravitySet, h, B2Body.SetGravityScale] at h2
    subst h2
    simp [RigidBody.gravityGet, B2Body.GetGravityScale]

/-- Witness for C10: on the freshly constructed RigidBody, reading gravity
returns the stored gravity scale, and setting it to 7 then reading gives
back exactly 7. -/
theorem gravity_passthrough_witness :
    RigidBody.init.gravityGet =
      some (b2World.CreateBody RigidBody.defaultBodyDefinition_).gravityScale ∧
    (∀ rb2 : RigidBody, RigidBody.init.gravitySet 7 = some rb2 → rb2.gravityGet = some 7) :=
  ⟨(gravity_passthrough RigidBody.init (b2World.CreateBody RigidBody.defaultBodyDefinition_)
      7 rfl).1,
   (gravity_passthrough RigidBody.init (b2World.CreateBody RigidBody.defaultBodyDefinition_)
      7 rfl).2.2⟩

/-- C6: every member of the force/impulse family forwards to the
corresponding physics-engine force or impulse application with the wake
flag true, converting force/impulse and point arguments to physics-engine
units (the Rel variants route the converted relative point through the
body's world transform); each scalar overload delegates to its vector
overload. -/
theorem force_impulse_family_forwards_wake_true (rb : RigidBody) (b : B2Body)
    (f p : Vec2) (i j x y : ℚ) (h : rb.body_ = some b) :
    rb.applyForceVec f p = some { rb with body_ := some ({ b with
      calls := EngineCall.applyForce (PhysicsSystem.convertToB2 f)
        (PhysicsSystem.convertToB2 p) true :: b.calls }) } ∧
    rb.applyForce i j x y = rb.applyForceVec ⟨i, j⟩ ⟨x, y⟩ ∧
    rb.applyForceToCentreVec f = some { rb with body_ := some ({ b with
      calls := EngineCall.applyForceToCenter (PhysicsSystem.convertToB2 f) true :: b.calls }) } ∧
    rb.applyForceToCentre i j = rb.applyForceToCentreVec ⟨i, j⟩ ∧
    rb.applyForceRelVec f p = some { rb with body_ := some ({ b with
      calls := EngineCall.applyForce (PhysicsSystem.convertToB2 f)
        (b.GetWorldPoint (PhysicsSystem.convertToB2 p)) true :: b.calls }) } ∧
    rb.applyForceRel i j x y = rb.applyForceRelVec ⟨i, j⟩ ⟨x, y⟩ ∧
    rb.applyImpulseVec f p = some { rb with body_ := some ({ b with
      calls := EngineCall.applyLinearImpulse (PhysicsSystem.convertToB2 f)
        (PhysicsSystem.convertToB2 p) true :: b.calls }) } ∧
    rb.applyImpulse i j x y = rb.applyImpulseVec ⟨i, j⟩ ⟨x, y⟩ ∧
    rb.applyImpulseToCentreVec f = some { rb with body_ := some ({ b with
      calls := EngineCall.applyLinearImpulseToCenter
        (PhysicsSystem.convertToB2 f) true :: b.calls }) } ∧
    rb.applyImpulseToCentre i j = rb.applyImpulseToCentreVec ⟨i, j⟩ ∧
    rb.applyImpulseRelVec f p = some { rb with body_ := some ({ b with
      calls := EngineCall.applyLinearImpulse (PhysicsSystem.convertToB2 f)
        (b.GetWorldPoint (PhysicsSystem.convertToB2 p)) true :: b.calls }) } ∧
    rb.applyImpulseRel i j x y = rb.applyImpulseRelVec ⟨i, j⟩ ⟨x, y⟩ := by
  refine ⟨?_, rfl, ?_, rfl, ?_, rfl, ?_, rfl, ?_, rfl, ?_, rfl⟩ <;>
    simp [RigidBody.applyForceVec, RigidBody.applyForceToCentreVec, RigidBody.applyForceRelVec,
      RigidBody.applyImpulseVec, RigidBody.applyImpulseToCentreVec, RigidBody.applyImpulseRelVec,
      h, B2Body.ApplyForce, B2Body.ApplyForceToCenter, B2Body.ApplyLinearImpulse,
      B2Body.ApplyLinearImpulseToCenter]

/-- Witness for C6: on the freshly constructed RigidBody, applyForceVec
logs an applyForce engine call with converted arguments and wake = true,
and the scalar applyImpulse delegates to its vector overload. -/
theorem force_impulse_family_forwards_wake_true_witness :
    RigidBody.init.applyForceVec ⟨1, 2⟩ ⟨3, 4⟩ = some { RigidBody.init with body_ := some ({
      b2World.CreateBody RigidBody.defaultBodyDefinition_ with
      calls := EngineCall.applyForce (PhysicsSystem.convertToB2 ⟨1, 2⟩)
        (PhysicsSystem.convertToB2 ⟨3, 4⟩) true ::
        (b2World.CreateBody RigidBody.defaultBodyDefinition_).calls }) } ∧
    RigidBody.init.applyImpulse 1 2 3 4 = RigidBody.init.applyImpulseVec ⟨1, 2⟩ ⟨3, 4⟩ :=
  ⟨(force_impulse_family_forwards_wake_true RigidBody.init
      (b2World.CreateBody RigidBody.defaultBodyDefinition_) ⟨1, 2⟩ ⟨3, 4⟩ 1 2 3 4 rfl).1,
   (force_impulse_family_forwards_wake_true RigidBody.init
      (b2World.CreateBody RigidBody.defaultBodyDefinition_) ⟨1, 2⟩ ⟨3, 4⟩ 1 2 3 4
      rfl).2.2.2.2.2.2.2.1⟩

/-- C7: on every tick, StatSystem.update maps the per-entity step over the
world; the step copies the stat fields into the movement fields of every
entity that has both a Stats and a Movement component, and leaves every
entity lacking either component completely untouched. -/
theorem statSystem_update_copies_and_skips (world : List Entity) (e : Entity) :
    StatSystem.update world = world.map StatSystem.stepEntity ∧
    ((e.stats = none ∨ e.movement = none) → StatSystem.stepEntity e = e) ∧
    (∀ (s : Stats) (m : Movement), e.stats = some s → e.movement = some m →
      StatSystem.stepEntity e = { e with
        movement := some (StatSystem.writeMovementStats s m) }) ∧
    (∀ (s : Stats) (m : Movement), (StatSystem.writeMovementStats s m).speed = s.speed) := by
  refine ⟨rfl, ?_, ?_, fun s m => rfl⟩
  · intro hor
    rcases hor with hs | hm <;>
      cases h2 : e.stats <;> cases h3 : e.movement <;> simp_all [StatSystem.stepEntity]
  · intro s m hs hm
    simp [StatSystem.stepEntity, hs, hm]

/-- Witness for C7: an entity with no Stats component is untouched, and an
entity with both components gets its movement speed overwritten from its
stats. -/
theorem statSystem_update_copies_and_skips_witness :
    StatSystem.stepEntity { stats := none, movement := some { speed := 5 } } =
      { stats := none, movement := some { speed := 5 } } ∧
    StatSystem.stepEntity { stats := some { speed := 9 }, movement := some { speed := 5 } } =
      { stats := some { speed := 9 }, movement := some (StatSystem.writeMovementStats
        { speed := 9 } { speed := 5 }) } :=
  ⟨(statSystem_update_copies_and_skips [] { stats := none, movement := some { speed := 5 } }).2.1
      (Or.inl rfl),
   (statSystem_update_copies_and_skips []
      { stats := some { speed := 9 }, movement := some { speed := 5 } }).2.2.1
      { speed := 9 } { speed := 5 } rfl rfl⟩

/-- C8: no RigidBody operation guards the body handle except the
body-replacement guard inside instantiate: addFixture, warpTo and the
whole force/impulse family dereference the handle unconditionally (the
operation is defined exactly when the handle is non-null, with no fallback
or error path), while instantiateBody is total and always ends with a live
body. -/
theorem rigidBody_ops_no_null_guard (rb : RigidBody) (bd : B2BodyDef) (fd : B2FixtureDef)
    (v w : Vec2) (i j x y : ℚ) :
    ((rb.addFixture fd).isSome ↔ rb.body_.isSome) ∧
    ((rb.warpTo x y).isSome ↔ rb.body_.isSome) ∧
    ((rb.warpToVec v).isSome ↔ rb.body_.isSome) ∧
    ((rb.applyForce i j x y).isSome ↔ rb.body_.isSome) ∧
    ((rb.applyForceVec v w).isSome ↔ rb.body_.isSome) ∧
    ((rb.applyForceToCentre i j).isSome ↔ rb.body_.isSome) ∧
    ((rb.applyForceToCentreVec v).isSome ↔ rb.body_.isSome) ∧
    ((rb.applyForceRel i j x y).isSome ↔ rb.body_.isSome) ∧
    ((rb.applyForceRelVec v w).isSome ↔ rb.body_.isSome) ∧
    ((rb.applyImpulse i j x y).isSome ↔ rb.body_.isSome) ∧
    ((rb.applyImpulseVec v w).isSome ↔ rb.body_.isSome) ∧
    ((rb.applyImpulseToCentre i j).isSome ↔ rb.body_.isSome) ∧
    ((rb.applyImpulseToCentreVec v).isSome ↔ rb.body_.isSome) ∧
    ((rb.applyImpulseRel i j x y).isSome ↔ rb.body_.isSome) ∧
    ((rb.applyImpulseRelVec v w).isSome ↔ rb.body_.isSome) ∧
    (rb.instantiateBody bd).body_.isSome := by
  cases hb : rb.body_ <;>
    simp [RigidBody.addFixture, RigidBody.warpTo, RigidBody.warpToVec, RigidBody.applyForce,
      RigidBody.applyForceVec, RigidBody.applyForceToCentre, RigidBody.applyForceToCentreVec,
      RigidBody.applyForceRel, RigidBody.applyForceRelVec, RigidBody.applyImpulse,
      RigidBody.applyImpulseVec, RigidBody.applyImpulseToCentre,
      RigidBody.applyImpulseToCentreVec, RigidBody.applyImpulseRel,
      RigidBody.applyImpulseRelVec, RigidBody.instantiateBody, RigidBody.relinquishBody, hb]
